import Mathlib

/-!
Verification of the InputMagic rendering core (`src/render/render.ts`)
against its natural-language specification.

The data-model modules (`block.ts`, `chunk.ts`, `dimension.ts`,
`generator/3d.ts`, `utils.ts`) are not part of the sources at hand, only
their call sites in `render.ts`.  Everything taken from those modules is
modelled from the spec and marked `Modelled from the spec:` in its doc
comment.  Everything else is a direct shallow embedding of `render.ts`.

Number handling: all coordinates are JavaScript numbers holding integers;
they are embedded as `Int` (or `Nat` where the source value is an index or
a color channel).  Pixel-valued fields (`sprite.x`, `container.x`,
`renderChunkPixiHeight`, ...) involve `cos(5π/12)`/`sin(5π/12)` and are
purely derived display data that no claim refers to; they are omitted from
the embedded state.
-/

namespace InputMagic

/-- Modelled from the spec: `BlockPos` is an integer (x, y, z) in
data-model space, z vertical (`block.ts` is not in the sources). -/
structure BlockPos where
  x : Int
  y : Int
  z : Int
deriving DecidableEq, Repr

/-- The block position type used in rendering (`type RenderBlockPos` in
`render.ts`; fields declared in source order x, z, y). -/
structure RenderBlockPos where
  x : Int
  z : Int
  y : Int
deriving DecidableEq, Repr

/-- `type CenterPos` of `render.ts`: the center position of a render chunk
in the data-model coordinate system, ignoring the z-axis. -/
structure CenterPos where
  x : Int
  y : Int
deriving DecidableEq, Repr

/-- Modelled from the spec: `Block` is a tagged variant, `Empty` or
`Material(kind)` (§3; `block.ts` is not in the sources).  The source's
`EmptyBlock` carries the string `"air"`, surfaced here through
`Block.type`. -/
inductive Block where
  | empty
  | material (kind : String)
deriving DecidableEq, Repr

/-- `value instanceof EmptyBlock` checks of `render.ts`. -/
def Block.isEmpty : Block → Bool
  | .empty => true
  | .material _ => false

/-- The `value.type` field read in `renderRChunk`. -/
def Block.type : Block → String
  | .empty => "air"
  | .material kind => kind

/-- `const chunkSize = 8` of `render.ts`. -/
def chunkSize : Int := 8

/-- `const renderChunkSize = 8` of `render.ts`. -/
def renderChunkSize : Int := 8

/-- `convertBlockPosToRenderBlockPos` of `render.ts` (lines 481-487).
`renderChunkHeight = Chunk.HEIGHT` is a world-wide constant whose defining
module is not in the sources; it is passed as the explicit first
argument throughout. -/
def convertBlockPosToRenderBlockPos (renderChunkHeight : Int)
    (blockPos : BlockPos) : RenderBlockPos :=
  { x := blockPos.x
    y := renderChunkHeight - 1 - blockPos.z
    z := blockPos.y }

/-- `convertRenderBlockPosToBlockPos` of `render.ts` (lines 489-495). -/
def convertRenderBlockPosToBlockPos (renderChunkHeight : Int)
    (renderBlockPos : RenderBlockPos) : BlockPos :=
  { x := renderBlockPos.x
    y := renderChunkHeight - 1 - renderBlockPos.z
    z := renderBlockPos.y }

/-! ## The facing latch (`keyState` and its two listeners) -/

/-- The mutable `keyState` object of `render.ts`. -/
structure KeyState where
  lastKey : Option Int
  isActive : Bool
deriving DecidableEq, Repr

/-- The keydown listener (lines 140-146).  `Number.parseInt` of a
non-digit key yields `NaN`, which fails `key >= 1 && key <= 6` exactly as
any out-of-range integer does, so keys are embedded as `Int`. -/
def keydownStep (s : KeyState) (key : Int) : KeyState :=
  if 1 ≤ key ∧ key ≤ 6 then { lastKey := some key, isActive := true } else s

/-- The keyup listener (lines 148-154).  Note: it clears the latch for any
digit in 1..6, with no check against the currently latched key. -/
def keyupStep (s : KeyState) (key : Int) : KeyState :=
  if 1 ≤ key ∧ key ≤ 6 then { lastKey := none, isActive := false } else s

/-- A browser key event as seen by the two listeners. -/
inductive KeyEvent where
  | down (key : Int)
  | up (key : Int)
deriving DecidableEq, Repr

/-- One event dispatch. -/
def keyStep (s : KeyState) : KeyEvent → KeyState
  | .down k => keydownStep s k
  | .up k => keyupStep s k

/-- A sequence of key events dispatched in order. -/
def runKeyEvents (events : List KeyEvent) (s : KeyState) : KeyState :=
  events.foldl keyStep s

/-- The initial `keyState` value. -/
def initKeyState : KeyState := { lastKey := none, isActive := false }

/-! ## `colorVariants` (lines 307-333) -/

/-- One character of the validation pattern `^#[\dA-Fa-f]{6}$`. -/
def isHexDigit (c : Char) : Bool :=
  ('0' ≤ c && c ≤ '9') || ('A' ≤ c && c ≤ 'F') || ('a' ≤ c && c ≤ 'f')

/-- The guard `/^#[\dA-Fa-f]{6}$/.test(color)`. -/
def validHexColor (s : String) : Bool :=
  match s.data with
  | '#' :: rest => rest.length == 6 && rest.all isHexDigit
  | _ => false

/-- The value `Number.parseInt` assigns to one hex digit (used on strings
that passed the validation guard, so the fallback branch is dead). -/
def hexDigitToNat (c : Char) : Nat :=
  if '0' ≤ c && c ≤ '9' then c.toNat - '0'.toNat
  else if 'a' ≤ c && c ≤ 'f' then c.toNat - 'a'.toNat + 10
  else if 'A' ≤ c && c ≤ 'F' then c.toNat - 'A'.toNat + 10
  else 0

/-- `Number.parseInt(color.slice(i, i+2), 16)` on a two-character slice. -/
def hexPairVal (a b : Char) : Nat := 16 * hexDigitToNat a + hexDigitToNat b

/-- The `(r, g, b)` channels parsed from `color.slice(1,3)`,
`color.slice(3,5)`, `color.slice(5,7)`. -/
def channelsOf (s : String) : Nat × Nat × Nat :=
  (hexPairVal (s.data.getD 1 '0') (s.data.getD 2 '0'),
   hexPairVal (s.data.getD 3 '0') (s.data.getD 4 '0'),
   hexPairVal (s.data.getD 5 '0') (s.data.getD 6 '0'))

/-- `n.toString(16)` of JavaScript for a natural number: base-16 digits,
lowercase letters. -/
def toHexString (n : Nat) : List Char :=
  if n < 16 then [Nat.digitChar n]
  else toHexString (n / 16) ++ [Nat.digitChar (n % 16)]
termination_by n
decreasing_by simp_wf; exact Nat.div_lt_self (by omega) (by omega)

/-- `.padStart(len, c)` of JavaScript on a character list. -/
def padStart (cs : List Char) (len : Nat) (c : Char) : List Char :=
  List.replicate (len - cs.length) c ++ cs

/-- `Math.max(0, v).toString(16).padStart(2, "0")` where `v = c - 30*(i+1)`
over the integers: `Nat` subtraction realises the `Math.max(0, ·)` clamp. -/
def hexByteChars (n : Nat) : List Char := padStart (toHexString n) 2 '0'

/-- The template `` `#${newR}${newG}${newB}` ``. -/
def mkHexColor (r g b : Nat) : String :=
  String.mk ('#' :: (hexByteChars r ++ hexByteChars g ++ hexByteChars b))

/-- `colorVariants` of `render.ts` (lines 307-333).  The thrown
`Invalid hex color format` error is embedded as `none`; the loop
`for (let i = 1; i <= 2; i++)` is unrolled (its bounds are literals).
Channel `c` at step `i` becomes `Math.max(0, c - 30 * (i + 1))`, i.e.
`c - 60` and `c - 90` in clamped `Nat` subtraction. -/
def colorVariants (color : String) : Option (List String) :=
  if validHexColor color then
    let r := (channelsOf color).1
    let g := (channelsOf color).2.1
    let b := (channelsOf color).2.2
    some [color,
      mkHexColor (r - 30 * 2) (g - 30 * 2) (b - 30 * 2),
      mkHexColor (r - 30 * 3) (g - 30 * 3) (b - 30 * 3)]
  else none

/-! ## The palette registry (`colorMapper`, `inventory`, `addNewBlockType`) -/

/-- An inventory item (`type Item` of `inventory.ts`). -/
structure Item where
  type : String
  color : String
deriving DecidableEq, Repr

/-- The ambient palette state touched by `addNewBlockType`: the module
global `colorMapper` (a string-keyed object, embedded as a lookup
function) and the inventory's `items` list. -/
structure PaletteState where
  colorMapper : String → Option String
  inventoryItems : List Item

/-- `colorMapper[key] = value` on a JavaScript object. -/
def updateCM (m : String → Option String) (key value : String) :
    String → Option String :=
  fun s => if s = key then some value else m s

/-- `extractFirstKey` of `render.ts` (lines 162-169): the prefix of `path`
before its first `'.'`, or all of `path` when there is none. -/
def extractFirstKey (path : String) : String :=
  String.mk (path.data.takeWhile (· ≠ '.'))

/-- `addNewBlockType` of `render.ts` (lines 926-947).  The `for ... in`
loop over own properties is embedded as a fold over the object's entry
list in iteration order; `inventory.addItem` is `items.unshift`, i.e. a
cons onto the item list. -/
def addNewBlockType (aiBlockData : List (String × String))
    (st : PaletteState) : PaletteState :=
  aiBlockData.foldl
    (fun st kv =>
      let keyMody := extractFirstKey kv.1
      let blockData := kv.2
      if !(blockData.data.contains '#') then st
      else
        { colorMapper := updateCM st.colorMapper keyMody blockData
          inventoryItems := ⟨keyMody, blockData⟩ :: st.inventoryItems })
    st

/-! ## The WorldStore (`Dimension`), modelled from the spec -/

/-- Modelled from the spec: the WorldStore (`dimension.ts` is not in the
sources) owns all persisted block state; chunk partitioning and lazy
generation are observationally a total position-to-block map for
`getBlock`/`setBlock` (§4.1), so the store is embedded as that map. -/
abbrev World := BlockPos → Block

/-- Modelled from the spec: `getBlock(pos)` resolves to the block at
`pos` (§4.1). -/
def getBlock (w : World) (pos : BlockPos) : Block := w pos

/-- Modelled from the spec: `setBlock(pos, block)` overwrites the block at
`pos`, leaving every other position unchanged (§4.1, §3). -/
def setBlock (w : World) (pos : BlockPos) (block : Block) : World :=
  fun q => if q = pos then block else w q

/-- Modelled from the spec: `getBlockArray(min, max)` returns every block
in the inclusive axis-aligned box, zero-indexed relative to `min`, by
repeated `getBlock` calls (§4.1). -/
def dimensionGetBlockArray (w : World) (pmin pmax : BlockPos) :
    List (List (List Block)) :=
  (List.range ((pmax.x - pmin.x).toNat + 1)).map fun (i : Nat) =>
    (List.range ((pmax.y - pmin.y).toNat + 1)).map fun (j : Nat) =>
      (List.range ((pmax.z - pmin.z).toNat + 1)).map fun (k : Nat) =>
        getBlock w { x := pmin.x + (i : Int), y := pmin.y + (j : Int), z := pmin.z + (k : Int) }

/-! ## Scene model: sprites, containers, the render grid -/

/-- The matrix index stamped on a container (`indexPos` field of
`ExtendedContainer`), and the row/column arithmetic done on it by the
pointer handler; JavaScript numbers, hence `Int`. -/
structure IndexPos where
  x : Int
  y : Int
deriving DecidableEq, Repr

/-- An `ExtendedSprite`: the block node of one visible block.  Pixel
position (`sprite.x`, `sprite.y`, irrational-valued) is derived from
`pos` and omitted; the painter's key `zIndex` is kept. -/
structure Sprite where
  color : String
  pos : RenderBlockPos
  containerCenter : CenterPos
  zIndex : Int
deriving DecidableEq, Repr

/-- An `ExtendedContainer`: one Tile of the sliding window, carrying its
matrix index and its child block sprites. -/
structure ExtendedContainer where
  indexPos : IndexPos
  sprites : List Sprite
deriving DecidableEq, Repr

/-- `this.rengerGrid`, in format `[y][x]`. -/
abbrev Grid := List (List ExtendedContainer)

/-- The sprite built by `renderBlock` (lines 497-513) for one block:
texture color, render position, owning chunk center, and
`zIndex = (pos.x + pos.z) * 100000 - pos.y * 10`. -/
def mkSprite (color : String) (pos : RenderBlockPos)
    (chunkCenter : CenterPos) : Sprite :=
  { color := color
    pos := pos
    containerCenter := chunkCenter
    zIndex := (pos.x + pos.z) * 100000 - pos.y * 10 }

/-- `renderBlock`'s effect on its target container: `container.addChild`
of the new sprite. -/
def renderBlockInto (color : String) (pos : RenderBlockPos)
    (container : ExtendedContainer) (chunkCenter : CenterPos) :
    ExtendedContainer :=
  { container with
      sprites := container.sprites ++ [mkSprite color pos chunkCenter] }

/-- The color chosen in `renderRChunk`:
`value.type in colorMapper ? colorMapper[value.type] : "#000000"`. -/
def blockColor (colorMapper : String → Option String) (value : Block) :
    String :=
  match colorMapper value.type with
  | some c => c
  | none => "#000000"

/-- `renderRChunk` (lines 949-1059): a fresh `ExtendedContainer` with
`indexPos = {x: 0, y: 0}` holding one sprite per non-`Empty` block of
`blockArray` (`traverse3DArray` visits indices `(x, y, z)` of the dense
array; the face-adjacency flags computed alongside are dead reads and the
pixel `stagePos` is display-only, both omitted). -/
def renderRChunk (renderChunkHeight : Int)
    (colorMapper : String → Option String)
    (blockArray : List (List (List Block))) (chunkcenter : CenterPos) :
    ExtendedContainer :=
  { indexPos := { x := 0, y := 0 }
    sprites :=
      (blockArray.enum.map fun ix =>
        (ix.2.enum.map fun iy =>
          iy.2.enum.filterMap fun iz =>
            match iz.2 with
            | .empty => none
            | .material kind =>
                some (mkSprite
                  (blockColor colorMapper (Block.material kind))
                  (convertBlockPosToRenderBlockPos renderChunkHeight
                    { x := ix.1, y := iy.1, z := iz.1 })
                  chunkcenter)).flatten).flatten }

/-- `Render.getBlockArray` (lines 1061-1076): the chunk-sized box around
`center`; `Math.ceil(renderChunkSize / 2) = 4` and
`Math.floor(renderChunkSize / 2) = 4`, `z` spanning `[0, H - 1]`. -/
def renderGetBlockArray (renderChunkHeight : Int) (w : World)
    (center : CenterPos) : List (List (List Block)) :=
  dimensionGetBlockArray w
    { x := center.x - 4, y := center.y - 4, z := 0 }
    { x := center.x + 4, y := center.y + 4, z := renderChunkHeight - 1 }

/-- `Math.floor(xMaxChunkLength / 2)` (`offsetX`, line 344; same formula
for `offsetY`). -/
def offsetOf (maxChunkLength : Nat) : Int := (maxChunkLength / 2 : Nat)

/-- The container built for grid slot `(x', y')` with stored chunk center
`c`: `renderRChunk(getBlockArray(c), ..., c)` as done by `initStage` and
all four edge operations. -/
def buildContainer (renderChunkHeight : Int)
    (colorMapper : String → Option String) (w : World) (c : CenterPos) :
    ExtendedContainer :=
  renderRChunk renderChunkHeight colorMapper
    (renderGetBlockArray renderChunkHeight w c) c

/-! ## The `Render` state and the streaming maintenance operations -/

/-- The mutable `Render` fields the claims are about, together with the
module-global `dimension` world store.  (`app`, textures, ticker tasks
and mouse coordinates are display plumbing no claim refers to.) -/
structure RenderState where
  rengerGrid : List (List ExtendedContainer)
  currentXOffset : Int
  currentYOffset : Int
  center : CenterPos
  world : World

/-- `initStage(center?)` (lines 1078-1133): build the full
`yMaxChunkLength × xMaxChunkLength` grid of containers around the
(defaulted) center; the offsets and `this.center` keep their constructor
values. -/
def initState (renderChunkHeight : Int) (xMaxChunkLength yMaxChunkLength : Nat)
    (colorMapper : String → Option String) (w : World)
    (center : CenterPos) : RenderState :=
  { rengerGrid :=
      (List.range yMaxChunkLength).map fun (y : Nat) =>
        (List.range xMaxChunkLength).map fun (x : Nat) =>
          buildContainer renderChunkHeight colorMapper w
            { x := ((x : Int) + center.x - offsetOf xMaxChunkLength) * chunkSize
              y := ((y : Int) + center.y - offsetOf yMaxChunkLength) * chunkSize }
    currentXOffset := 0
    currentYOffset := 0
    center := { x := 0, y := 0 }
    world := w }

/-- `addTopRow` (lines 1142-1206): destroy the last row, decrement
`currentYOffset` and `center.y`, build a row of `xMaxChunkLength` new
containers and unshift it. -/
def addTopRow (renderChunkHeight : Int) (xMaxChunkLength yMaxChunkLength : Nat)
    (colorMapper : String → Option String) (s : RenderState) : RenderState :=
  let newYOffset := s.currentYOffset - 1
  let row :=
    (List.range xMaxChunkLength).map fun (x : Nat) =>
      buildContainer renderChunkHeight colorMapper s.world
        { x := ((x : Int) + s.currentXOffset - offsetOf xMaxChunkLength) * chunkSize
          y := (newYOffset - offsetOf yMaxChunkLength) * chunkSize }
  { s with
      rengerGrid := row :: s.rengerGrid.dropLast
      currentYOffset := newYOffset
      center := { s.center with y := s.center.y - 1 } }

/-- `addBottomRow` (lines 1261-1323): destroy the first row, increment
`currentYOffset`, push a row of new containers. -/
def addBottomRow (renderChunkHeight : Int) (xMaxChunkLength yMaxChunkLength : Nat)
    (colorMapper : String → Option String) (s : RenderState) : RenderState :=
  let newYOffset := s.currentYOffset + 1
  let row :=
    (List.range xMaxChunkLength).map fun (x : Nat) =>
      buildContainer renderChunkHeight colorMapper s.world
        { x := ((x : Int) + s.currentXOffset - offsetOf xMaxChunkLength) * chunkSize
          y := (newYOffset - offsetOf yMaxChunkLength + (yMaxChunkLength : Int)) * chunkSize }
  { s with
      rengerGrid := s.rengerGrid.drop 1 ++ [row]
      currentYOffset := newYOffset }

/-- `addRightColumn` (lines 1208-1258): increment `currentXOffset`, then
in every row shift off the first container and push a new one whose box
sits at `(xMaxChunkLength - 1 + currentXOffset) * chunkSize` (the source
subtracts no `offsetX` here). -/
def addRightColumn (renderChunkHeight : Int) (xMaxChunkLength yMaxChunkLength : Nat)
    (colorMapper : String → Option String) (s : RenderState) : RenderState :=
  let newXOffset := s.currentXOffset + 1
  { s with
      rengerGrid :=
        s.rengerGrid.enum.map fun yrow =>
          yrow.2.drop 1 ++
            [buildContainer renderChunkHeight colorMapper s.world
              { x := ((xMaxChunkLength : Int) - 1 + newXOffset) * chunkSize
                y := ((yrow.1 : Int) + s.currentYOffset - offsetOf yMaxChunkLength) * chunkSize }]
      currentXOffset := newXOffset }

/-- `addLeftColumn` (lines 1325-1387): decrement `currentXOffset`, then in
every row pop the last container and unshift a new one whose box sits at
`(0 + currentXOffset - offsetX) * chunkSize`. -/
def addLeftColumn (renderChunkHeight : Int) (xMaxChunkLength yMaxChunkLength : Nat)
    (colorMapper : String → Option String) (s : RenderState) : RenderState :=
  let newXOffset := s.currentXOffset - 1
  { s with
      rengerGrid :=
        s.rengerGrid.enum.map fun yrow =>
          buildContainer renderChunkHeight colorMapper s.world
            { x := ((0 : Int) + newXOffset - offsetOf xMaxChunkLength) * chunkSize
              y := ((yrow.1 : Int) + s.currentYOffset - offsetOf yMaxChunkLength) * chunkSize } ::
            yrow.2.dropLast
      currentXOffset := newXOffset }

/-- One of the four edge maintenance operations. -/
inductive ShiftOp where
  | top
  | bottom
  | left
  | right
deriving DecidableEq, Repr

/-- Dispatch of one shift. -/
def applyShift (renderChunkHeight : Int) (xMaxChunkLength yMaxChunkLength : Nat)
    (colorMapper : String → Option String) (s : RenderState) :
    ShiftOp → RenderState
  | .top => addTopRow renderChunkHeight xMaxChunkLength yMaxChunkLength colorMapper s
  | .bottom => addBottomRow renderChunkHeight xMaxChunkLength yMaxChunkLength colorMapper s
  | .left => addLeftColumn renderChunkHeight xMaxChunkLength yMaxChunkLength colorMapper s
  | .right => addRightColumn renderChunkHeight xMaxChunkLength yMaxChunkLength colorMapper s

/-- A finite sequence of shifts, as fired over any number of ticks. -/
def applyShifts (renderChunkHeight : Int) (xMaxChunkLength yMaxChunkLength : Nat)
    (colorMapper : String → Option String) (ops : List ShiftOp)
    (s : RenderState) : RenderState :=
  ops.foldl (applyShift renderChunkHeight xMaxChunkLength yMaxChunkLength colorMapper) s

/-! ## `reassignIndex` -/

/-- In-place update of one list position (JavaScript `l[i] = f(l[i])`;
out-of-range indices cannot occur on the complete rectangle the grid
invariant maintains). -/
def listModify {α : Type} (f : α → α) : Nat → List α → List α
  | _, [] => []
  | 0, a :: as => f a :: as
  | n + 1, a :: as => a :: listModify f n as

/-- `this.rengerGrid[i][j].indexPos = { x: i, y: j }`. -/
def setIndexAt (g : Grid) (i j : Nat) : Grid :=
  listModify
    (listModify (fun c => { c with indexPos := { x := (i : Int), y := (j : Int) } }) j)
    i g

/-- `reassignIndex` (lines 402-408): the double loop
`for i < yMaxChunkLength, for j < xMaxChunkLength`. -/
def reassignIndex (xMaxChunkLength yMaxChunkLength : Nat) (g : Grid) : Grid :=
  (List.range yMaxChunkLength).foldl
    (fun g i =>
      (List.range xMaxChunkLength).foldl (fun g j => setIndexAt g i j) g)
    g

/-- The container at matrix position `(i, j)`, when it exists. -/
def containerAt (g : Grid) (i j : Nat) : Option ExtendedContainer :=
  g[i]?.bind (·[j]?)

/-- The container addressed by an `indexPos`-valued (possibly negative)
matrix index, as the pointer handler does with
`this.rengerGrid[ci.x ± 1][ci.y]`. -/
def containerAtI (g : Grid) (p : IndexPos) : Option ExtendedContainer :=
  if 0 ≤ p.x ∧ 0 ≤ p.y then containerAt g p.x.toNat p.y.toNat else none

/-! ## The pointerdown edit handler (lines 514-923) -/

/-- `colorMapper[selectedBlockType] || "#00ff00"`: JavaScript `||` falls
through on the falsy values `undefined` and `""`. -/
def jsOrColor (o : Option String) (fallback : String) : String :=
  match o with
  | some s => if s = "" then fallback else s
  | none => fallback

/-- `this.renderBlock(color, pos, targetContainer, chunkCenter)` where the
target container is the grid cell at matrix index `p` (negative or
out-of-window indices have no cell; the spec calls that case
`GridInvariantViolation` (§7), and the theorems below carry the in-window
hypotheses that exclude it). -/
def addSpriteAt (g : Grid) (p : IndexPos) (color : String)
    (pos : RenderBlockPos) (chunkCenter : CenterPos) : Grid :=
  if 0 ≤ p.x ∧ 0 ≤ p.y then
    listModify
      (listModify (fun c => renderBlockInto color pos c chunkCenter) p.y.toNat)
      p.x.toNat g
  else g

/-- `sprite.parent.removeChild(sprite)` with the sprite's container at
matrix index `p`. -/
def removeSpriteAt (g : Grid) (p : IndexPos) (sp : Sprite) : Grid :=
  if 0 ≤ p.x ∧ 0 ≤ p.y then
    listModify
      (listModify (fun c => { c with sprites := c.sprites.erase sp }) p.y.toNat)
      p.x.toNat g
  else g

/-- The `pointerdown` listener attached in `renderBlock`
(lines 514-923), for a left-button click on `sprite`.  `containerIndex`
is the owning container's `indexPos` read at click time (after each
tick's `reassignIndex` it equals the container's true matrix position,
which is how the model addresses the container inside the grid).
`absolutePos` recovers the clicked block's data-space position:
`Math.ceil(renderChunkSize / 2) = 4`.  The JavaScript `%` on the
wrapped render coordinates acts on non-negative operands, where it
agrees with `Int.emod`. -/
def pointerdown (renderChunkHeight : Int)
    (colorMapper : String → Option String) (selectedBlockType : String)
    (ks : KeyState) (sprite : Sprite) (containerIndex : IndexPos)
    (g : Grid) (w : World) : Grid × World :=
  let pos := sprite.pos
  let absolutePos : BlockPos :=
    { x := sprite.containerCenter.x - 4 + pos.x
      y := sprite.containerCenter.y - 4 + pos.z
      z := renderChunkHeight - pos.y - 1 }
  let placeColor := jsOrColor (colorMapper selectedBlockType) "#00ff00"
  if ks.isActive then
    if ks.lastKey = some 1 then
      let g' :=
        if pos.z + 1 < chunkSize + 1 then
          addSpriteAt g containerIndex placeColor
            { x := pos.x, y := pos.y, z := pos.z + 1 } sprite.containerCenter
        else
          addSpriteAt g { x := containerIndex.x + 1, y := containerIndex.y }
            placeColor
            { x := pos.x, y := pos.y, z := (pos.z + 1) % (chunkSize + 1) }
            sprite.containerCenter
      (g', setBlock w { absolutePos with y := absolutePos.y + 1 }
        (Block.material selectedBlockType))
    else if ks.lastKey = some 2 then
      let w' := setBlock w { absolutePos with y := absolutePos.y - 1 }
        (Block.material selectedBlockType)
      let g' :=
        if pos.z - 1 ≥ 0 then
          addSpriteAt g containerIndex placeColor
            { x := pos.x, y := pos.y, z := pos.z - 1 } sprite.containerCenter
        else
          addSpriteAt g { x := containerIndex.x - 1, y := containerIndex.y }
            placeColor
            { x := pos.x, y := pos.y, z := pos.z - 1 + chunkSize + 1 }
            sprite.containerCenter
      (g', w')
    else if ks.lastKey = some 3 then
      let g' :=
        if pos.x - 1 ≥ 0 then
          addSpriteAt g containerIndex placeColor
            { x := pos.x - 1, y := pos.y, z := pos.z } sprite.containerCenter
        else
          addSpriteAt g { x := containerIndex.x, y := containerIndex.y - 1 }
            placeColor
            { x := pos.x - 1 + chunkSize + 1, y := pos.y, z := pos.z }
            sprite.containerCenter
      (g', setBlock w { absolutePos with x := absolutePos.x - 1 }
        (Block.material selectedBlockType))
    else if ks.lastKey = some 4 then
      let g' :=
        if pos.x + 1 < chunkSize + 1 then
          addSpriteAt g containerIndex placeColor
            { x := pos.x + 1, y := pos.y, z := pos.z } sprite.containerCenter
        else
          addSpriteAt g { x := containerIndex.x, y := containerIndex.y + 1 }
            placeColor
            { x := (pos.x + 1) % (chunkSize + 1), y := pos.y, z := pos.z }
            sprite.containerCenter
      (g', setBlock w { absolutePos with x := absolutePos.x + 1 }
        (Block.material selectedBlockType))
    else if ks.lastKey = some 5 ∧
        (getBlock w { absolutePos with z := absolutePos.z + 1 }).isEmpty ∧
        absolutePos.z + 1 < renderChunkHeight then
      (addSpriteAt g containerIndex placeColor
          { x := pos.x, y := pos.y - 1, z := pos.z } sprite.containerCenter,
       setBlock w { absolutePos with z := absolutePos.z + 1 }
        (Block.material selectedBlockType))
    else if ks.lastKey = some 6 ∧
        (getBlock w { absolutePos with z := absolutePos.z - 1 }).isEmpty ∧
        absolutePos.z - 1 > 0 then
      (addSpriteAt g containerIndex placeColor
          { x := pos.x, y := pos.y + 1, z := pos.z } sprite.containerCenter,
       setBlock w { absolutePos with z := absolutePos.z - 1 }
        (Block.material selectedBlockType))
    else
      (g, w)
  else
    (removeSpriteAt g containerIndex sprite, setBlock w absolutePos Block.empty)

/-- The clicked block's data-space position as the handler computes it. -/
def clickedAbsolutePos (renderChunkHeight : Int) (sprite : Sprite) : BlockPos :=
  { x := sprite.containerCenter.x - 4 + sprite.pos.x
    y := sprite.containerCenter.y - 4 + sprite.pos.z
    z := renderChunkHeight - sprite.pos.y - 1 }

/-- Following the claim's words (C3): the data-space neighbor of `p` in
the latched facing direction `d` (digits 1..6: +y, -y, -x, +x, +z, -z). -/
def facingNeighbor (d : Int) (p : BlockPos) : BlockPos :=
  if d = 1 then { p with y := p.y + 1 }
  else if d = 2 then { p with y := p.y - 1 }
  else if d = 3 then { p with x := p.x - 1 }
  else if d = 4 then { p with x := p.x + 1 }
  else if d = 5 then { p with z := p.z + 1 }
  else { p with z := p.z - 1 }

/-- Following the claim's words (C3): whether the neighbor in direction
`d` still falls inside the clicked Tile's box, in the render coordinates
of the clicked node. -/
def neighborInBox (d : Int) (pos : RenderBlockPos) : Bool :=
  if d = 1 then decide (pos.z + 1 < chunkSize + 1)
  else if d = 2 then decide (pos.z - 1 ≥ 0)
  else if d = 3 then decide (pos.x - 1 ≥ 0)
  else if d = 4 then decide (pos.x + 1 < chunkSize + 1)
  else true

/-- Following the claim's words (C3): the matrix index of the Tile that
receives the new scene node — the current Tile when the neighbor falls
inside its box, otherwise the adjacent Tile by matrix reindex. -/
def claimTargetIndex (d : Int) (pos : RenderBlockPos) (ci : IndexPos) :
    IndexPos :=
  if neighborInBox d pos then ci
  else if d = 1 then { x := ci.x + 1, y := ci.y }
  else if d = 2 then { x := ci.x - 1, y := ci.y }
  else if d = 3 then { x := ci.x, y := ci.y - 1 }
  else { x := ci.x, y := ci.y + 1 }

/-- The grid is a complete `yMaxChunkLength × xMaxChunkLength` rectangle
(§3: "ViewportGrid is always a complete rectangle, no gaps"). -/
def GridShape (xMaxChunkLength yMaxChunkLength : Nat) (g : Grid) : Prop :=
  g.length = yMaxChunkLength ∧ ∀ row ∈ g, row.length = xMaxChunkLength

/-- The stamp written by one `reassignIndex` cell visit. -/
def stampIndex (i j : Nat) (c : ExtendedContainer) : ExtendedContainer :=
  { c with indexPos := { x := (i : Int), y := (j : Int) } }

/-! # Theorems -/

/-- C1: the two conversion functions are NOT mutually inverse.  Both apply
the same permutation `(x, y, z) ↦ (x, H-1-z, y)`, so either round trip is
the reflection `(x, y, z) ↦ (x, H-1-y, H-1-z)`; at `H = 16` the
height-bounded render position `(x 0, z 1, y 0)` round-trips to
`(x 0, z 14, y 15)`, and the block position `(0, 0, 1)` likewise moves.
(The pointer handler inlines the true inverse `dataZ = H-1-renderY`,
`dataY = renderZ` instead of calling `convertRenderBlockPosToBlockPos`.) -/
theorem c1_conversions_not_mutually_inverse :
    (∀ (renderChunkHeight : Int) (r : RenderBlockPos),
        convertBlockPosToRenderBlockPos renderChunkHeight
            (convertRenderBlockPosToBlockPos renderChunkHeight r) =
          { x := r.x
            y := renderChunkHeight - 1 - r.y
            z := renderChunkHeight - 1 - r.z }) ∧
    (∀ (renderChunkHeight : Int) (p : BlockPos),
        convertRenderBlockPosToBlockPos renderChunkHeight
            (convertBlockPosToRenderBlockPos renderChunkHeight p) =
          { x := p.x
            y := renderChunkHeight - 1 - p.y
            z := renderChunkHeight - 1 - p.z }) ∧
    convertBlockPosToRenderBlockPos 16
        (convertRenderBlockPosToBlockPos 16 { x := 0, z := 1, y := 0 }) ≠
      { x := 0, z := 1, y := 0 } ∧
    convertRenderBlockPosToBlockPos 16
        (convertBlockPosToRenderBlockPos 16 { x := 0, y := 0, z := 1 }) ≠
      { x := 0, y := 0, z := 1 } :=
  ⟨fun _ _ => rfl, fun _ _ => rfl, by decide, by decide⟩

/-- C2 (counterexample): keydown 2 latches Facing(2); a keyup of the
different digit 3 should leave the latch at Facing(2), but the keyup
listener clears it for any digit in 1..6. -/
theorem c2_nonmatching_keyup_clears :
    runKeyEvents [.down 2, .up 3] initKeyState =
        { lastKey := none, isActive := false } ∧
      ({ lastKey := none, isActive := false } : KeyState) ≠
        { lastKey := some 2, isActive := true } := by
  decide

/-- C2 (amended): a keydown of digit d in 1..6 always latches Facing(d)
(last pressed wins), and a keyup of ANY digit in 1..6 resets the latch to
Neutral regardless of which digit is currently latched. -/
theorem c2_latch_amended (events : List KeyEvent) (d : Int)
    (h1 : 1 ≤ d) (h6 : d ≤ 6) :
    runKeyEvents (events ++ [.down d]) initKeyState =
        { lastKey := some d, isActive := true } ∧
      runKeyEvents (events ++ [.up d]) initKeyState =
        { lastKey := none, isActive := false } := by
  unfold runKeyEvents
  rw [List.foldl_append, List.foldl_append]
  constructor <;> simp [keyStep, keydownStep, keyupStep, if_pos, h1, h6]

/-- Witness for `c2_latch_amended` at `events = [down 3]`, `d = 2`. -/
theorem c2_latch_amended_witness :
    ((1 : Int) ≤ 2 ∧ (2 : Int) ≤ 6) ∧
      runKeyEvents ([KeyEvent.down 3] ++ [.down 2]) initKeyState =
        { lastKey := some 2, isActive := true } ∧
      runKeyEvents ([KeyEvent.down 3] ++ [.up 2]) initKeyState =
        { lastKey := none, isActive := false } :=
  ⟨⟨by decide, by decide⟩,
    (c2_latch_amended [KeyEvent.down 3] 2 (by decide) (by decide)).1,
    (c2_latch_amended [KeyEvent.down 3] 2 (by decide) (by decide)).2⟩

/-- C8: `colorVariants` returns normally exactly on inputs matching the
strict pattern `#` followed by six hex digits; every other input raises
the invalid-color error (embedded as `none`). -/
theorem c8_error_iff_invalid (s : String) :
    (∃ l, colorVariants s = some l) ↔ validHexColor s = true := by
  unfold colorVariants
  by_cases h : validHexColor s <;> simp [h]

/-- C6: none of the four streaming maintenance operations writes to the
WorldStore: after any sequence of shifts the world component is the same
map, so every `getBlock` answer is unchanged. -/
theorem c6_shifts_preserve_world (renderChunkHeight : Int)
    (xMaxChunkLength yMaxChunkLength : Nat)
    (colorMapper : String → Option String) (ops : List ShiftOp)
    (s : RenderState) :
    (applyShifts renderChunkHeight xMaxChunkLength yMaxChunkLength
          colorMapper ops s).world = s.world ∧
      ∀ p, getBlock (applyShifts renderChunkHeight xMaxChunkLength
          yMaxChunkLength colorMapper ops s).world p = getBlock s.world p := by
  have key : ∀ (t : RenderState) (op : ShiftOp),
      (applyShift renderChunkHeight xMaxChunkLength yMaxChunkLength
        colorMapper t op).world = t.world := by
    intro t op; cases op <;> rfl
  have main : ∀ (l : List ShiftOp) (t : RenderState),
      (applyShifts renderChunkHeight xMaxChunkLength yMaxChunkLength
        colorMapper l t).world = t.world := by
    intro l
    induction l with
    | nil => intro t; rfl
    | cons op rest ih =>
        intro t
        calc (applyShifts renderChunkHeight xMaxChunkLength yMaxChunkLength
                colorMapper (op :: rest) t).world
            = (applyShift renderChunkHeight xMaxChunkLength yMaxChunkLength
                colorMapper t op).world := ih _
          _ = t.world := key t op
  exact ⟨main ops s, fun p => by rw [getBlock, getBlock, main ops s]⟩

/-! ### Hex arithmetic lemmas for C7 -/

theorem hexDigitToNat_lt (c : Char) : hexDigitToNat c < 16 := by
  unfold hexDigitToNat
  split_ifs with h1 h2 h3
  · obtain ⟨ha, hb⟩ := (Bool.and_eq_true _ _).mp h1
    have g1 : ('0' : Char).toNat ≤ c.toNat := of_decide_eq_true ha
    have g2 : c.toNat ≤ ('9' : Char).toNat := of_decide_eq_true hb
    have e1 : ('0' : Char).toNat = 48 := rfl
    have e2 : ('9' : Char).toNat = 57 := rfl
    omega
  · obtain ⟨ha, hb⟩ := (Bool.and_eq_true _ _).mp h2
    have g1 : ('a' : Char).toNat ≤ c.toNat := of_decide_eq_true ha
    have g2 : c.toNat ≤ ('f' : Char).toNat := of_decide_eq_true hb
    have e1 : ('a' : Char).toNat = 97 := rfl
    have e2 : ('f' : Char).toNat = 102 := rfl
    omega
  · obtain ⟨ha, hb⟩ := (Bool.and_eq_true _ _).mp h3
    have g1 : ('A' : Char).toNat ≤ c.toNat := of_decide_eq_true ha
    have g2 : c.toNat ≤ ('F' : Char).toNat := of_decide_eq_true hb
    have e1 : ('A' : Char).toNat = 65 := rfl
    have e2 : ('F' : Char).toNat = 70 := rfl
    omega
  · omega

theorem toHexString_of_lt (n : Nat) (h : n < 16) :
    toHexString n = [Nat.digitChar n] := by
  rw [toHexString]; simp [h]

theorem hexByteChars_eq (n : Nat) (h : n < 256) :
    hexByteChars n = [Nat.digitChar (n / 16), Nat.digitChar (n % 16)] := by
  unfold hexByteChars
  by_cases h16 : n < 16
  · rw [toHexString_of_lt n h16]
    have hd : n / 16 = 0 := Nat.div_eq_of_lt h16
    have hm : n % 16 = n := Nat.mod_eq_of_lt h16
    simp [padStart, hd, hm, List.replicate]
    rfl
  · rw [toHexString]
    simp only [h16, if_false]
    have hq : n / 16 < 16 := by omega
    rw [toHexString_of_lt _ hq]
    simp [padStart]

theorem hexDigitToNat_digitChar (d : Nat) (h : d < 16) :
    hexDigitToNat (Nat.digitChar d) = d := by
  interval_cases d <;> rfl

theorem hexPairVal_lt (a b : Char) : hexPairVal a b < 256 := by
  have ha := hexDigitToNat_lt a
  have hb := hexDigitToNat_lt b
  unfold hexPairVal
  omega

theorem hexPairVal_digitChars (n : Nat) (h : n < 256) :
    hexPairVal (Nat.digitChar (n / 16)) (Nat.digitChar (n % 16)) = n := by
  unfold hexPairVal
  rw [hexDigitToNat_digitChar _ (by omega), hexDigitToNat_digitChar _ (by omega)]
  omega

theorem channelsOf_mkHexColor (r g b : Nat)
    (hr : r < 256) (hg : g < 256) (hb : b < 256) :
    channelsOf (mkHexColor r g b) = (r, g, b) := by
  unfold channelsOf mkHexColor
  rw [hexByteChars_eq r hr, hexByteChars_eq g hg, hexByteChars_eq b hb]
  simp [List.getD]
  exact ⟨hexPairVal_digitChars r hr, hexPairVal_digitChars g hg,
    hexPairVal_digitChars b hb⟩

/-- C7: on a valid `#hhhhhh` input, `colorVariants` returns exactly three
colors, the first equal to the input, and the i-th variant's channels
(i = 1, 2) each equal `max(0, c - 30*(i+1))` of the corresponding input
channel — monotonically non-increasing and clamped at 0. -/
theorem c7_color_variants (s : String) (h : validHexColor s = true) :
    ∃ v1 v2,
      colorVariants s = some [s, v1, v2] ∧
      (channelsOf v1).1 = (max 0 (((channelsOf s).1 : Int) - 30 * 2)).toNat ∧
      (channelsOf v1).2.1 = (max 0 (((channelsOf s).2.1 : Int) - 30 * 2)).toNat ∧
      (channelsOf v1).2.2 = (max 0 (((channelsOf s).2.2 : Int) - 30 * 2)).toNat ∧
      (channelsOf v2).1 = (max 0 (((channelsOf s).1 : Int) - 30 * 3)).toNat ∧
      (channelsOf v2).2.1 = (max 0 (((channelsOf s).2.1 : Int) - 30 * 3)).toNat ∧
      (channelsOf v2).2.2 = (max 0 (((channelsOf s).2.2 : Int) - 30 * 3)).toNat ∧
      (channelsOf v2).1 ≤ (channelsOf v1).1 ∧
      (channelsOf v1).1 ≤ (channelsOf s).1 ∧
      (channelsOf v2).2.1 ≤ (channelsOf v1).2.1 ∧
      (channelsOf v1).2.1 ≤ (channelsOf s).2.1 ∧
      (channelsOf v2).2.2 ≤ (channelsOf v1).2.2 ∧
      (channelsOf v1).2.2 ≤ (channelsOf s).2.2 := by
  have hr : (channelsOf s).1 < 256 := hexPairVal_lt _ _
  have hg : (channelsOf s).2.1 < 256 := hexPairVal_lt _ _
  have hb : (channelsOf s).2.2 < 256 := hexPairVal_lt _ _
  refine ⟨mkHexColor ((channelsOf s).1 - 30 * 2) ((channelsOf s).2.1 - 30 * 2)
      ((channelsOf s).2.2 - 30 * 2),
    mkHexColor ((channelsOf s).1 - 30 * 3) ((channelsOf s).2.1 - 30 * 3)
      ((channelsOf s).2.2 - 30 * 3),
    ?_, ?_, ?_, ?_, ?_, ?_, ?_, ?_, ?_, ?_, ?_, ?_, ?_⟩
  · simp only [colorVariants, h, if_true]
  all_goals
    rw [channelsOf_mkHexColor _ _ _ (by omega) (by omega) (by omega)]
  all_goals
    try rw [channelsOf_mkHexColor _ _ _ (by omega) (by omega) (by omega)]
  all_goals dsimp only
  all_goals
    first
    | (rcases max_cases 0 (((channelsOf s).1 : Int) - 30 * 2) with ⟨h1, h2⟩ | ⟨h1, h2⟩ <;>
        rw [h1] <;> omega)
    | (rcases max_cases 0 (((channelsOf s).2.1 : Int) - 30 * 2) with ⟨h1, h2⟩ | ⟨h1, h2⟩ <;>
        rw [h1] <;> omega)
    | (rcases max_cases 0 (((channelsOf s).2.2 : Int) - 30 * 2) with ⟨h1, h2⟩ | ⟨h1, h2⟩ <;>
        rw [h1] <;> omega)
    | (rcases max_cases 0 (((channelsOf s).1 : Int) - 30 * 3) with ⟨h1, h2⟩ | ⟨h1, h2⟩ <;>
        rw [h1] <;> omega)
    | (rcases max_cases 0 (((channelsOf s).2.1 : Int) - 30 * 3) with ⟨h1, h2⟩ | ⟨h1, h2⟩ <;>
        rw [h1] <;> omega)
    | (rcases max_cases 0 (((channelsOf s).2.2 : Int) - 30 * 3) with ⟨h1, h2⟩ | ⟨h1, h2⟩ <;>
        rw [h1] <;> omega)
    | omega

/-- Witness for `c7_color_variants` at the spec's example `"#00ff00"`. -/
theorem c7_color_variants_witness :
    validHexColor "#00ff00" = true ∧
    ∃ v1 v2,
      colorVariants "#00ff00" = some ["#00ff00", v1, v2] ∧
      (channelsOf v1).1 = (max 0 (((channelsOf "#00ff00").1 : Int) - 30 * 2)).toNat ∧
      (channelsOf v1).2.1 = (max 0 (((channelsOf "#00ff00").2.1 : Int) - 30 * 2)).toNat ∧
      (channelsOf v1).2.2 = (max 0 (((channelsOf "#00ff00").2.2 : Int) - 30 * 2)).toNat ∧
      (channelsOf v2).1 = (max 0 (((channelsOf "#00ff00").1 : Int) - 30 * 3)).toNat ∧
      (channelsOf v2).2.1 = (max 0 (((channelsOf "#00ff00").2.1 : Int) - 30 * 3)).toNat ∧
      (channelsOf v2).2.2 = (max 0 (((channelsOf "#00ff00").2.2 : Int) - 30 * 3)).toNat ∧
      (channelsOf v2).1 ≤ (channelsOf v1).1 ∧
      (channelsOf v1).1 ≤ (channelsOf "#00ff00").1 ∧
      (channelsOf v2).2.1 ≤ (channelsOf v1).2.1 ∧
      (channelsOf v1).2.1 ≤ (channelsOf "#00ff00").2.1 ∧
      (channelsOf v2).2.2 ≤ (channelsOf v1).2.2 ∧
      (channelsOf v1).2.2 ≤ (channelsOf "#00ff00").2.2 :=
  ⟨by decide, c7_color_variants "#00ff00" (by decide)⟩

/-- C10: `addNewBlockType` registers exactly the entries whose value
contains `'#'` — each such entry `(k, v)` prepends the inventory item
`{type: k', color: v}` (processing order preserved, `unshift` reverses)
and sets `colorMapper[k'] = v`, later entries winning, where `k'` is `k`
truncated at its first `'.'`; entries without `'#'` change nothing, and
no further hex validation happens at registration time. -/
theorem c10_add_new_block_type (entries : List (String × String))
    (st : PaletteState) :
    (addNewBlockType entries st).inventoryItems =
      ((entries.filter fun kv => kv.2.data.contains '#').map
          fun kv => ({ type := extractFirstKey kv.1, color := kv.2 } : Item)).reverse
        ++ st.inventoryItems ∧
    ∀ k, (addNewBlockType entries st).colorMapper k =
      match (entries.filter fun kv => kv.2.data.contains '#').reverse.find?
          (fun kv => extractFirstKey kv.1 == k) with
      | some kv => some kv.2
      | none => st.colorMapper k := by
  induction entries generalizing st with
  | nil => exact ⟨rfl, fun _ => rfl⟩
  | cons kv rest ih =>
    by_cases hc : kv.2.data.contains '#'
    · have hcm : '#' ∈ kv.2.data := by simpa using hc
      have h1 : addNewBlockType (kv :: rest) st =
          addNewBlockType rest
            { colorMapper := updateCM st.colorMapper (extractFirstKey kv.1) kv.2
              inventoryItems :=
                { type := extractFirstKey kv.1, color := kv.2 } :: st.inventoryItems } := by
        simp [addNewBlockType, hcm]
      obtain ⟨ihInv, ihCM⟩ := ih
        { colorMapper := updateCM st.colorMapper (extractFirstKey kv.1) kv.2
          inventoryItems :=
            { type := extractFirstKey kv.1, color := kv.2 } :: st.inventoryItems }
      constructor
      · rw [h1, ihInv]
        simp [List.filter_cons, hcm, List.append_assoc]
      · intro k
        rw [h1, ihCM k]
        rw [List.filter_cons, if_pos hc, List.reverse_cons, List.find?_append]
        cases hfind : ((rest.filter fun kv => kv.2.data.contains '#').reverse.find?
            fun kv => extractFirstKey kv.1 == k) with
        | some kvf => simp [Option.or, hfind]
        | none =>
          simp only [hfind, Option.or, List.find?]
          by_cases hk : extractFirstKey kv.1 = k
          · simp [updateCM, hk, beq_iff_eq]
          · have hbeq : (extractFirstKey kv.1 == k) = false := by
              simp [hk]
            have hk' : ¬ k = extractFirstKey kv.1 := fun h => hk h.symm
            simp [updateCM, hbeq, hk']
    · have hcm : ¬ '#' ∈ kv.2.data := by simpa using hc
      have h1 : addNewBlockType (kv :: rest) st = addNewBlockType rest st := by
        simp [addNewBlockType, hcm]
      obtain ⟨ihInv, ihCM⟩ := ih st
      rw [h1]
      rw [List.filter_cons, if_neg hc]
      exact ⟨ihInv, ihCM⟩

/-! ### Grid shape lemmas for C4 and C5 -/

theorem gridShape_initState (renderChunkHeight : Int)
    (xMaxChunkLength yMaxChunkLength : Nat)
    (colorMapper : String → Option String) (w : World) (center : CenterPos) :
    GridShape xMaxChunkLength yMaxChunkLength
      (initState renderChunkHeight xMaxChunkLength yMaxChunkLength
        colorMapper w center).rengerGrid := by
  constructor
  · simp only [initState]
    rw [List.length_map, List.length_range]
  · intro row hr
    simp only [initState, List.mem_map] at hr
    obtain ⟨y, _, rfl⟩ := hr
    rw [List.length_map, List.length_range]

theorem gridShape_applyShift (renderChunkHeight : Int)
    (xMaxChunkLength yMaxChunkLength : Nat)
    (colorMapper : String → Option String)
    (hx : 1 ≤ xMaxChunkLength) (hy : 1 ≤ yMaxChunkLength)
    (s : RenderState)
    (h : GridShape xMaxChunkLength yMaxChunkLength s.rengerGrid)
    (op : ShiftOp) :
    GridShape xMaxChunkLength yMaxChunkLength
      (applyShift renderChunkHeight xMaxChunkLength yMaxChunkLength
        colorMapper s op).rengerGrid := by
  obtain ⟨hlen, hrow⟩ := h
  cases op
  case top =>
    constructor
    · simp only [applyShift, addTopRow, List.length_cons, List.length_dropLast]
      omega
    · intro row hr
      simp only [applyShift, addTopRow, List.mem_cons] at hr
      rcases hr with rfl | hr
      · simp
      · exact hrow row (List.dropLast_subset _ hr)
  case bottom =>
    constructor
    · simp only [applyShift, addBottomRow, List.length_append,
        List.length_drop, List.length_cons, List.length_nil]
      omega
    · intro row hr
      simp only [applyShift, addBottomRow, List.mem_append,
        List.mem_singleton] at hr
      rcases hr with hr | rfl
      · exact hrow row (List.drop_subset _ _ hr)
      · simp
  case left =>
    constructor
    · simp only [applyShift, addLeftColumn]
      rw [List.length_map, List.enum_length, hlen]
    · intro row hr
      simp only [applyShift, addLeftColumn, List.mem_map] at hr
      obtain ⟨p, hp, rfl⟩ := hr
      have hmem : p.2 ∈ s.rengerGrid := List.snd_mem_of_mem_enum hp
      have := hrow p.2 hmem
      simp only [List.length_cons, List.length_dropLast, this]
      omega
  case right =>
    constructor
    · simp only [applyShift, addRightColumn]
      rw [List.length_map, List.enum_length, hlen]
    · intro row hr
      simp only [applyShift, addRightColumn, List.mem_map] at hr
      obtain ⟨p, hp, rfl⟩ := hr
      have hmem : p.2 ∈ s.rengerGrid := List.snd_mem_of_mem_enum hp
      have := hrow p.2 hmem
      simp only [List.length_append, List.length_drop, List.length_cons,
        List.length_nil, this]
      omega

theorem gridShape_applyShifts (renderChunkHeight : Int)
    (xMaxChunkLength yMaxChunkLength : Nat)
    (colorMapper : String → Option String)
    (hx : 1 ≤ xMaxChunkLength) (hy : 1 ≤ yMaxChunkLength)
    (ops : List ShiftOp) (s : RenderState)
    (h : GridShape xMaxChunkLength yMaxChunkLength s.rengerGrid) :
    GridShape xMaxChunkLength yMaxChunkLength
      (applyShifts renderChunkHeight xMaxChunkLength yMaxChunkLength
        colorMapper ops s).rengerGrid := by
  induction ops generalizing s with
  | nil => exact h
  | cons op rest ih =>
      exact ih _ (gridShape_applyShift renderChunkHeight xMaxChunkLength
        yMaxChunkLength colorMapper hx hy s h op)

/-- C4: starting from `initStage` and applying any finite sequence of edge
shifts, the render grid stays a complete rectangle of exactly
`yMaxChunkLength` rows of exactly `xMaxChunkLength` containers each. -/
theorem c4_window_size_invariance (renderChunkHeight : Int)
    (xMaxChunkLength yMaxChunkLength : Nat)
    (colorMapper : String → Option String) (w : World) (center : CenterPos)
    (ops : List ShiftOp)
    (hx : 1 ≤ xMaxChunkLength) (hy : 1 ≤ yMaxChunkLength) :
    GridShape xMaxChunkLength yMaxChunkLength
      (applyShifts renderChunkHeight xMaxChunkLength yMaxChunkLength
        colorMapper ops
        (initState renderChunkHeight xMaxChunkLength yMaxChunkLength
          colorMapper w center)).rengerGrid :=
  gridShape_applyShifts renderChunkHeight xMaxChunkLength yMaxChunkLength
    colorMapper hx hy ops _
    (gridShape_initState renderChunkHeight xMaxChunkLength yMaxChunkLength
      colorMapper w center)

/-- Witness for `c4_window_size_invariance`: a 1×1 window, one shift of
each kind, the all-empty world. -/
theorem c4_window_size_invariance_witness :
    (1 ≤ 1 ∧ 1 ≤ 1) ∧
      GridShape 1 1
        (applyShifts 1 1 1 (fun _ => none)
          [ShiftOp.top, ShiftOp.right, ShiftOp.bottom, ShiftOp.left]
          (initState 1 1 1 (fun _ => none) (fun _ => Block.empty)
            { x := 0, y := 0 })).rengerGrid :=
  ⟨⟨by decide, by decide⟩,
    c4_window_size_invariance 1 1 1 (fun _ => none) (fun _ => Block.empty)
      { x := 0, y := 0 }
      [ShiftOp.top, ShiftOp.right, ShiftOp.bottom, ShiftOp.left]
      (by decide) (by decide)⟩

/-! ### `reassignIndex` characterization for C5 -/

theorem getElem?_listModify {α : Type} (f : α → α) (n : Nat) (l : List α)
    (m : Nat) :
    (listModify f n l)[m]? = if m = n then l[m]?.map f else l[m]? := by
  induction l generalizing n m with
  | nil => simp [listModify]
  | cons a as ih =>
      cases n with
      | zero =>
          cases m with
          | zero => simp [listModify]
          | succ m => simp [listModify]
      | succ n =>
          cases m with
          | zero => simp [listModify]
          | succ m => simpa [listModify, Nat.succ_inj] using ih n m

theorem containerAt_setIndexAt (g : Grid) (i j a b : Nat) :
    containerAt (setIndexAt g i j) a b =
      if a = i ∧ b = j then (containerAt g a b).map (stampIndex i j)
      else containerAt g a b := by
  unfold containerAt setIndexAt
  by_cases ha : a = i
  · subst ha
    by_cases hb : b = j
    · subst hb
      rw [if_pos ⟨rfl, rfl⟩]
      cases hg : g[a]? with
      | none => simp [getElem?_listModify, hg]
      | some row =>
          simp [getElem?_listModify, hg, stampIndex]
          rfl
    · rw [if_neg (by simp [hb])]
      cases hg : g[a]? with
      | none => simp [getElem?_listModify, hg]
      | some row => simp [getElem?_listModify, hg, hb]
  · rw [if_neg (by simp [ha])]
    rw [getElem?_listModify, if_neg ha]

theorem containerAt_innerFold (xm : Nat) (g : Grid) (i a b : Nat) :
    containerAt
        ((List.range xm).foldl (fun g j => setIndexAt g i j) g) a b =
      if a = i ∧ b < xm then (containerAt g a b).map (stampIndex i b)
      else containerAt g a b := by
  induction xm with
  | zero => simp
  | succ m ih =>
      rw [List.range_succ, List.foldl_append, List.foldl_cons, List.foldl_nil]
      rw [containerAt_setIndexAt, ih]
      by_cases ha : a = i
      · subst ha
        by_cases hb : b = m
        · subst hb
          rw [if_pos ⟨rfl, rfl⟩, if_neg (by omega : ¬ (a = a ∧ b < b)),
            if_pos ⟨rfl, by omega⟩]
        · rw [if_neg (by omega : ¬ (a = a ∧ b = m))]
          by_cases hbm : b < m
          · rw [if_pos ⟨rfl, hbm⟩, if_pos ⟨rfl, by omega⟩]
          · rw [if_neg (by omega : ¬ (a = a ∧ b < m)),
              if_neg (by omega : ¬ (a = a ∧ b < m + 1))]
      · simp [ha]

theorem containerAt_reassignIndex (xMaxChunkLength yMaxChunkLength : Nat)
    (g : Grid) (a b : Nat) :
    containerAt (reassignIndex xMaxChunkLength yMaxChunkLength g) a b =
      if a < yMaxChunkLength ∧ b < xMaxChunkLength then
        (containerAt g a b).map (stampIndex a b)
      else containerAt g a b := by
  unfold reassignIndex
  induction yMaxChunkLength with
  | zero => simp
  | succ m ih =>
      rw [List.range_succ, List.foldl_append, List.foldl_cons, List.foldl_nil]
      rw [containerAt_innerFold, ih]
      by_cases ha : a = m
      · subst ha
        by_cases hbx : b < xMaxChunkLength
        · rw [if_pos ⟨rfl, hbx⟩, if_neg (by omega : ¬ (a < a ∧ b < xMaxChunkLength)),
            if_pos ⟨by omega, hbx⟩]
        · rw [if_neg (by omega : ¬ (a = a ∧ b < xMaxChunkLength)),
            if_neg (by omega : ¬ (a < a ∧ b < xMaxChunkLength)),
            if_neg (by omega : ¬ (a < a + 1 ∧ b < xMaxChunkLength))]
      · by_cases ham : a < m
        · rw [if_neg (by omega : ¬ (a = m ∧ b < xMaxChunkLength))]
          by_cases hbx : b < xMaxChunkLength
          · rw [if_pos ⟨ham, hbx⟩, if_pos ⟨by omega, hbx⟩]
          · rw [if_neg (by omega : ¬ (a < m ∧ b < xMaxChunkLength)),
              if_neg (by omega : ¬ (a < m + 1 ∧ b < xMaxChunkLength))]
        · rw [if_neg (by omega : ¬ (a = m ∧ b < xMaxChunkLength)),
            if_neg (by omega : ¬ (a < m ∧ b < xMaxChunkLength)),
            if_neg (by omega : ¬ (a < m + 1 ∧ b < xMaxChunkLength))]

/-- C5: after any maintenance pass — any sequence of fired shifts on the
initialized grid followed by `reassignIndex` — every container's stored
`indexPos` equals its true matrix position `(i, j)`. -/
theorem c5_reindex_correct (renderChunkHeight : Int)
    (xMaxChunkLength yMaxChunkLength : Nat)
    (colorMapper : String → Option String) (w : World) (center : CenterPos)
    (ops : List ShiftOp)
    (hx : 1 ≤ xMaxChunkLength) (hy : 1 ≤ yMaxChunkLength)
    (i j : Nat) (hi : i < yMaxChunkLength) (hj : j < xMaxChunkLength) :
    (containerAt
        (reassignIndex xMaxChunkLength yMaxChunkLength
          (applyShifts renderChunkHeight xMaxChunkLength yMaxChunkLength
            colorMapper ops
            (initState renderChunkHeight xMaxChunkLength yMaxChunkLength
              colorMapper w center)).rengerGrid) i j).map
      ExtendedContainer.indexPos = some { x := (i : Int), y := (j : Int) } := by
  obtain ⟨hlen, hrowlen⟩ :=
    gridShape_applyShifts renderChunkHeight xMaxChunkLength yMaxChunkLength
      colorMapper hx hy ops _
      (gridShape_initState renderChunkHeight xMaxChunkLength yMaxChunkLength
        colorMapper w center)
  rw [containerAt_reassignIndex, if_pos ⟨hi, hj⟩]
  set g := (applyShifts renderChunkHeight xMaxChunkLength yMaxChunkLength
    colorMapper ops
    (initState renderChunkHeight xMaxChunkLength yMaxChunkLength
      colorMapper w center)).rengerGrid with hgdef
  have hig : i < g.length := by rw [hlen]; exact hi
  have hrow : g[i]? = some (g[i]) := List.getElem?_eq_getElem hig
  have hjr : j < (g[i]).length := by
    rw [hrowlen (g[i]) (List.getElem_mem hig)]; exact hj
  have hcell : (g[i])[j]? = some ((g[i])[j]) := List.getElem?_eq_getElem hjr
  unfold containerAt
  rw [hrow]
  simp [hcell, stampIndex]

/-- Witness for `c5_reindex_correct`: a 2×2 window after one top shift,
cell (1, 0). -/
theorem c5_reindex_correct_witness :
    ((1 ≤ 2 ∧ 1 ≤ 2) ∧ 1 < 2 ∧ 0 < 2) ∧
      (containerAt
          (reassignIndex 2 2
            (applyShifts 1 2 2 (fun _ => none) [ShiftOp.top]
              (initState 1 2 2 (fun _ => none) (fun _ => Block.empty)
                { x := 0, y := 0 })).rengerGrid) 1 0).map
        ExtendedContainer.indexPos = some { x := (1 : Int), y := (0 : Int) } :=
  ⟨⟨⟨by decide, by decide⟩, by decide, by decide⟩,
    c5_reindex_correct 1 2 2 (fun _ => none) (fun _ => Block.empty)
      { x := 0, y := 0 } [ShiftOp.top] (by decide) (by decide) 1 0
      (by decide) (by decide)⟩

/-! ### Pointer-handler lemmas for C3 and C9 -/

theorem containerAtI_addSpriteAt_self (g : Grid) (p : IndexPos)
    (color : String) (pos : RenderBlockPos) (center : CenterPos) :
    containerAtI (addSpriteAt g p color pos center) p =
      (containerAtI g p).map (fun c => renderBlockInto color pos c center) := by
  unfold containerAtI addSpriteAt
  by_cases hp : 0 ≤ p.x ∧ 0 ≤ p.y
  · simp only [if_pos hp]
    unfold containerAt
    rw [getElem?_listModify, if_pos rfl]
    cases hg : g[p.x.toNat]? with
    | none => simp
    | some row =>
        simp only [Option.map_some', Option.some_bind]
        rw [getElem?_listModify, if_pos rfl]
  · simp only [if_neg hp]
    simp

theorem containerAtI_addSpriteAt_other (g : Grid) (p q : IndexPos)
    (color : String) (pos : RenderBlockPos) (center : CenterPos)
    (hne : q ≠ p) :
    containerAtI (addSpriteAt g p color pos center) q = containerAtI g q := by
  unfold containerAtI addSpriteAt
  by_cases hp : 0 ≤ p.x ∧ 0 ≤ p.y
  · simp only [if_pos hp]
    by_cases hq : 0 ≤ q.x ∧ 0 ≤ q.y
    · simp only [if_pos hq]
      unfold containerAt
      by_cases hx : q.x.toNat = p.x.toNat
      · have hxx : q.x = p.x := by omega
        have hyy : ¬ q.y = p.y := by
          intro hy
          exact hne (by cases p; cases q; simp_all)
        have hyn : ¬ q.y.toNat = p.y.toNat := by omega
        rw [getElem?_listModify, if_pos hx, hx]
        cases hg : g[p.x.toNat]? with
        | none => simp
        | some row =>
            simp only [Option.map_some', Option.some_bind]
            rw [getElem?_listModify, if_neg hyn]
      · rw [getElem?_listModify, if_neg hx]
    · simp only [if_neg hq]
  · simp only [if_neg hp]

/-- C3 (counterexample): with facing 5 (up) latched but the block above
the clicked block occupied, the handler writes nothing — the claimed
unconditional WorldStore write of the selected type does not happen. -/
theorem c3_place_counterexample :
    getBlock
        (pointerdown 16 (fun _ => none) "grass"
            { lastKey := some 5, isActive := true }
            (mkSprite "#00ff00" { x := 0, z := 0, y := 0 } { x := 0, y := 0 })
            { x := 0, y := 0 }
            [[{ indexPos := { x := 0, y := 0 }, sprites := [] }]]
            (fun _ => Block.material "stone")).2
        { x := -4, y := -4, z := 16 } =
      Block.material "stone" ∧
    Block.material "stone" ≠ Block.material "grass" := by
  constructor
  · rfl
  · decide

/-- C3 (amended): on a latched facing d, restricted as the code's guards
force — unconditionally for d in 1..4, and for d = 5/6 only when the
vertical neighbor is Empty and in height range — the handler writes a
Block of the selected palette type at the data-space neighbor of the
clicked block's absolute position, and adds exactly one scene node of the
selected palette color to the current Tile's container when the neighbor
falls inside its box, otherwise to the adjacent container resolved via
the matrix index, leaving every other container unchanged. -/
theorem c3_place_amended (renderChunkHeight : Int)
    (colorMapper : String → Option String) (selectedBlockType : String)
    (sprite : Sprite) (containerIndex : IndexPos) (g : Grid) (w : World)
    (d : Int) (hd1 : 1 ≤ d) (hd6 : d ≤ 6)
    (hg5 : d = 5 →
      (getBlock w { clickedAbsolutePos renderChunkHeight sprite with
          z := (clickedAbsolutePos renderChunkHeight sprite).z + 1 }).isEmpty = true ∧
      (clickedAbsolutePos renderChunkHeight sprite).z + 1 < renderChunkHeight)
    (hg6 : d = 6 →
      (getBlock w { clickedAbsolutePos renderChunkHeight sprite with
          z := (clickedAbsolutePos renderChunkHeight sprite).z - 1 }).isEmpty = true ∧
      (clickedAbsolutePos renderChunkHeight sprite).z - 1 > 0) :
    (pointerdown renderChunkHeight colorMapper selectedBlockType
        { lastKey := some d, isActive := true } sprite containerIndex g w).2 =
      setBlock w
        (facingNeighbor d (clickedAbsolutePos renderChunkHeight sprite))
        (Block.material selectedBlockType) ∧
    ∃ sp : Sprite,
      sp.color = jsOrColor (colorMapper selectedBlockType) "#00ff00" ∧
      containerAtI
          (pointerdown renderChunkHeight colorMapper selectedBlockType
            { lastKey := some d, isActive := true } sprite containerIndex g w).1
          (claimTargetIndex d sprite.pos containerIndex) =
        (containerAtI g (claimTargetIndex d sprite.pos containerIndex)).map
          (fun c => { c with sprites := c.sprites ++ [sp] }) ∧
      ∀ q, q ≠ claimTargetIndex d sprite.pos containerIndex →
        containerAtI
            (pointerdown renderChunkHeight colorMapper selectedBlockType
              { lastKey := some d, isActive := true } sprite containerIndex g
              w).1 q =
          containerAtI g q := by
  interval_cases d
  · -- d = 1: place north (data y + 1)
    have hred : pointerdown renderChunkHeight colorMapper selectedBlockType
        { lastKey := some 1, isActive := true } sprite containerIndex g w =
        (if sprite.pos.z + 1 < chunkSize + 1 then
            addSpriteAt g containerIndex
              (jsOrColor (colorMapper selectedBlockType) "#00ff00")
              { x := sprite.pos.x, y := sprite.pos.y, z := sprite.pos.z + 1 }
              sprite.containerCenter
          else
            addSpriteAt g
              { x := containerIndex.x + 1, y := containerIndex.y }
              (jsOrColor (colorMapper selectedBlockType) "#00ff00")
              { x := sprite.pos.x, y := sprite.pos.y,
                z := (sprite.pos.z + 1) % (chunkSize + 1) }
              sprite.containerCenter,
          setBlock w
            { clickedAbsolutePos renderChunkHeight sprite with
                y := (clickedAbsolutePos renderChunkHeight sprite).y + 1 }
            (Block.material selectedBlockType)) := rfl
    rw [hred]
    refine ⟨rfl, ?_⟩
    dsimp only
    by_cases hbox : sprite.pos.z + 1 < chunkSize + 1
    · rw [if_pos hbox]
      have htgt : claimTargetIndex 1 sprite.pos containerIndex =
          containerIndex := by
        simp [claimTargetIndex, neighborInBox, hbox]
      rw [htgt]
      exact ⟨mkSprite (jsOrColor (colorMapper selectedBlockType) "#00ff00")
          { x := sprite.pos.x, y := sprite.pos.y, z := sprite.pos.z + 1 }
          sprite.containerCenter, rfl,
        by rw [containerAtI_addSpriteAt_self]; rfl,
        fun q hq => containerAtI_addSpriteAt_other _ _ _ _ _ _ hq⟩
    · rw [if_neg hbox]
      have htgt : claimTargetIndex 1 sprite.pos containerIndex =
          { x := containerIndex.x + 1, y := containerIndex.y } := by
        simp [claimTargetIndex, neighborInBox, hbox]
      rw [htgt]
      exact ⟨mkSprite (jsOrColor (colorMapper selectedBlockType) "#00ff00")
          { x := sprite.pos.x, y := sprite.pos.y,
            z := (sprite.pos.z + 1) % (chunkSize + 1) }
          sprite.containerCenter, rfl,
        by rw [containerAtI_addSpriteAt_self]; rfl,
        fun q hq => containerAtI_addSpriteAt_other _ _ _ _ _ _ hq⟩
  · -- d = 2: place south (data y - 1)
    have hred : pointerdown renderChunkHeight colorMapper selectedBlockType
        { lastKey := some 2, isActive := true } sprite containerIndex g w =
        (if sprite.pos.z - 1 ≥ 0 then
            addSpriteAt g containerIndex
              (jsOrColor (colorMapper selectedBlockType) "#00ff00")
              { x := sprite.pos.x, y := sprite.pos.y, z := sprite.pos.z - 1 }
              sprite.containerCenter
          else
            addSpriteAt g
              { x := containerIndex.x - 1, y := containerIndex.y }
              (jsOrColor (colorMapper selectedBlockType) "#00ff00")
              { x := sprite.pos.x, y := sprite.pos.y,
                z := sprite.pos.z - 1 + chunkSize + 1 }
              sprite.containerCenter,
          setBlock w
            { clickedAbsolutePos renderChunkHeight sprite with
                y := (clickedAbsolutePos renderChunkHeight sprite).y - 1 }
            (Block.material selectedBlockType)) := rfl
    rw [hred]
    refine ⟨rfl, ?_⟩
    dsimp only
    by_cases hbox : sprite.pos.z - 1 ≥ 0
    · rw [if_pos hbox]
      have htgt : claimTargetIndex 2 sprite.pos containerIndex =
          containerIndex := by
        simp [claimTargetIndex, neighborInBox, hbox]
      rw [htgt]
      exact ⟨mkSprite (jsOrColor (colorMapper selectedBlockType) "#00ff00")
          { x := sprite.pos.x, y := sprite.pos.y, z := sprite.pos.z - 1 }
          sprite.containerCenter, rfl,
        by rw [containerAtI_addSpriteAt_self]; rfl,
        fun q hq => containerAtI_addSpriteAt_other _ _ _ _ _ _ hq⟩
    · rw [if_neg hbox]
      have htgt : claimTargetIndex 2 sprite.pos containerIndex =
          { x := containerIndex.x - 1, y := containerIndex.y } := by
        simp [claimTargetIndex, neighborInBox, hbox]
      rw [htgt]
      exact ⟨mkSprite (jsOrColor (colorMapper selectedBlockType) "#00ff00")
          { x := sprite.pos.x, y := sprite.pos.y,
            z := sprite.pos.z - 1 + chunkSize + 1 }
          sprite.containerCenter, rfl,
        by rw [containerAtI_addSpriteAt_self]; rfl,
        fun q hq => containerAtI_addSpriteAt_other _ _ _ _ _ _ hq⟩
  · -- d = 3: place west (data x - 1)
    have hred : pointerdown renderChunkHeight colorMapper selectedBlockType
        { lastKey := some 3, isActive := true } sprite containerIndex g w =
        (if sprite.pos.x - 1 ≥ 0 then
            addSpriteAt g containerIndex
              (jsOrColor (colorMapper selectedBlockType) "#00ff00")
              { x := sprite.pos.x - 1, y := sprite.pos.y, z := sprite.pos.z }
              sprite.containerCenter
          else
            addSpriteAt g
              { x := containerIndex.x, y := containerIndex.y - 1 }
              (jsOrColor (colorMapper selectedBlockType) "#00ff00")
              { x := sprite.pos.x - 1 + chunkSize + 1, y := sprite.pos.y,
                z := sprite.pos.z }
              sprite.containerCenter,
          setBlock w
            { clickedAbsolutePos renderChunkHeight sprite with
                x := (clickedAbsolutePos renderChunkHeight sprite).x - 1 }
            (Block.material selectedBlockType)) := rfl
    rw [hred]
    refine ⟨rfl, ?_⟩
    dsimp only
    by_cases hbox : sprite.pos.x - 1 ≥ 0
    · rw [if_pos hbox]
      have htgt : claimTargetIndex 3 sprite.pos containerIndex =
          containerIndex := by
        simp [claimTargetIndex, neighborInBox, hbox]
      rw [htgt]
      exact ⟨mkSprite (jsOrColor (colorMapper selectedBlockType) "#00ff00")
          { x := sprite.pos.x - 1, y := sprite.pos.y, z := sprite.pos.z }
          sprite.containerCenter, rfl,
        by rw [containerAtI_addSpriteAt_self]; rfl,
        fun q hq => containerAtI_addSpriteAt_other _ _ _ _ _ _ hq⟩
    · rw [if_neg hbox]
      have htgt : claimTargetIndex 3 sprite.pos containerIndex =
          { x := containerIndex.x, y := containerIndex.y - 1 } := by
        simp [claimTargetIndex, neighborInBox, hbox]
      rw [htgt]
      exact ⟨mkSprite (jsOrColor (colorMapper selectedBlockType) "#00ff00")
          { x := sprite.pos.x - 1 + chunkSize + 1, y := sprite.pos.y,
            z := sprite.pos.z }
          sprite.containerCenter, rfl,
        by rw [containerAtI_addSpriteAt_self]; rfl,
        fun q hq => containerAtI_addSpriteAt_other _ _ _ _ _ _ hq⟩
  · -- d = 4: place east (data x + 1)
    have hred : pointerdown renderChunkHeight colorMapper selectedBlockType
        { lastKey := some 4, isActive := true } sprite containerIndex g w =
        (if sprite.pos.x + 1 < chunkSize + 1 then
            addSpriteAt g containerIndex
              (jsOrColor (colorMapper selectedBlockType) "#00ff00")
              { x := sprite.pos.x + 1, y := sprite.pos.y, z := sprite.pos.z }
              sprite.containerCenter
          else
            addSpriteAt g
              { x := containerIndex.x, y := containerIndex.y + 1 }
              (jsOrColor (colorMapper selectedBlockType) "#00ff00")
              { x := (sprite.pos.x + 1) % (chunkSize + 1), y := sprite.pos.y,
                z := sprite.pos.z }
              sprite.containerCenter,
          setBlock w
            { clickedAbsolutePos renderChunkHeight sprite with
                x := (clickedAbsolutePos renderChunkHeight sprite).x + 1 }
            (Block.material selectedBlockType)) := rfl
    rw [hred]
    refine ⟨rfl, ?_⟩
    dsimp only
    by_cases hbox : sprite.pos.x + 1 < chunkSize + 1
    · rw [if_pos hbox]
      have htgt : claimTargetIndex 4 sprite.pos containerIndex =
          containerIndex := by
        simp [claimTargetIndex, neighborInBox, hbox]
      rw [htgt]
      exact ⟨mkSprite (jsOrColor (colorMapper selectedBlockType) "#00ff00")
          { x := sprite.pos.x + 1, y := sprite.pos.y, z := sprite.pos.z }
          sprite.containerCenter, rfl,
        by rw [containerAtI_addSpriteAt_self]; rfl,
        fun q hq => containerAtI_addSpriteAt_other _ _ _ _ _ _ hq⟩
    · rw [if_neg hbox]
      have htgt : claimTargetIndex 4 sprite.pos containerIndex =
          { x := containerIndex.x, y := containerIndex.y + 1 } := by
        simp [claimTargetIndex, neighborInBox, hbox]
      rw [htgt]
      exact ⟨mkSprite (jsOrColor (colorMapper selectedBlockType) "#00ff00")
          { x := (sprite.pos.x + 1) % (chunkSize + 1), y := sprite.pos.y,
            z := sprite.pos.z }
          sprite.containerCenter, rfl,
        by rw [containerAtI_addSpriteAt_self]; rfl,
        fun q hq => containerAtI_addSpriteAt_other _ _ _ _ _ _ hq⟩
  · -- d = 5: place up (data z + 1), guarded
    obtain ⟨hempty, hlt⟩ := hg5 rfl
    have hred : pointerdown renderChunkHeight colorMapper selectedBlockType
        { lastKey := some 5, isActive := true } sprite containerIndex g w =
        (addSpriteAt g containerIndex
            (jsOrColor (colorMapper selectedBlockType) "#00ff00")
            { x := sprite.pos.x, y := sprite.pos.y - 1, z := sprite.pos.z }
            sprite.containerCenter,
          setBlock w
            { clickedAbsolutePos renderChunkHeight sprite with
                z := (clickedAbsolutePos renderChunkHeight sprite).z + 1 }
            (Block.material selectedBlockType)) :=
      if_pos ⟨rfl, hempty, hlt⟩
    rw [hred]
    refine ⟨rfl, ?_⟩
    dsimp only
    have htgt : claimTargetIndex 5 sprite.pos containerIndex =
        containerIndex := by
      simp [claimTargetIndex, neighborInBox]
    rw [htgt]
    exact ⟨mkSprite (jsOrColor (colorMapper selectedBlockType) "#00ff00")
        { x := sprite.pos.x, y := sprite.pos.y - 1, z := sprite.pos.z }
        sprite.containerCenter, rfl,
      by rw [containerAtI_addSpriteAt_self]; rfl,
      fun q hq => containerAtI_addSpriteAt_other _ _ _ _ _ _ hq⟩
  · -- d = 6: place down (data z - 1), guarded
    obtain ⟨hempty, hgt⟩ := hg6 rfl
    have hred : pointerdown renderChunkHeight colorMapper selectedBlockType
        { lastKey := some 6, isActive := true } sprite containerIndex g w =
        (addSpriteAt g containerIndex
            (jsOrColor (colorMapper selectedBlockType) "#00ff00")
            { x := sprite.pos.x, y := sprite.pos.y + 1, z := sprite.pos.z }
            sprite.containerCenter,
          setBlock w
            { clickedAbsolutePos renderChunkHeight sprite with
                z := (clickedAbsolutePos renderChunkHeight sprite).z - 1 }
            (Block.material selectedBlockType)) :=
      if_pos ⟨rfl, hempty, hgt⟩
    rw [hred]
    refine ⟨rfl, ?_⟩
    dsimp only
    have htgt : claimTargetIndex 6 sprite.pos containerIndex =
        containerIndex := by
      simp [claimTargetIndex, neighborInBox]
    rw [htgt]
    exact ⟨mkSprite (jsOrColor (colorMapper selectedBlockType) "#00ff00")
        { x := sprite.pos.x, y := sprite.pos.y + 1, z := sprite.pos.z }
        sprite.containerCenter, rfl,
      by rw [containerAtI_addSpriteAt_self]; rfl,
      fun q hq => containerAtI_addSpriteAt_other _ _ _ _ _ _ hq⟩

/-- Witness for `c3_place_amended` at facing 1 on a 1×1 grid over the
all-empty world. -/
theorem c3_place_amended_witness :
    ((1 : Int) ≤ 1 ∧ (1 : Int) ≤ 6) ∧
    ((pointerdown 16 (fun _ => none) "grass"
          { lastKey := some 1, isActive := true }
          (mkSprite "#00ff00" { x := 0, z := 0, y := 0 } { x := 0, y := 0 })
          { x := 0, y := 0 }
          [[{ indexPos := { x := 0, y := 0 }, sprites := [] }]]
          (fun _ => Block.empty)).2 =
        setBlock (fun _ => Block.empty)
          (facingNeighbor 1
            (clickedAbsolutePos 16
              (mkSprite "#00ff00" { x := 0, z := 0, y := 0 }
                { x := 0, y := 0 })))
          (Block.material "grass") ∧
      ∃ sp : Sprite,
        sp.color = jsOrColor ((fun _ => (none : Option String)) "grass") "#00ff00" ∧
        containerAtI
            (pointerdown 16 (fun _ => none) "grass"
              { lastKey := some 1, isActive := true }
              (mkSprite "#00ff00" { x := 0, z := 0, y := 0 } { x := 0, y := 0 })
              { x := 0, y := 0 }
              [[{ indexPos := { x := 0, y := 0 }, sprites := [] }]]
              (fun _ => Block.empty)).1
            (claimTargetIndex 1
              (mkSprite "#00ff00" { x := 0, z := 0, y := 0 }
                { x := 0, y := 0 }).pos
              { x := 0, y := 0 }) =
          (containerAtI [[{ indexPos := { x := 0, y := 0 }, sprites := [] }]]
              (claimTargetIndex 1
                (mkSprite "#00ff00" { x := 0, z := 0, y := 0 }
                  { x := 0, y := 0 }).pos
                { x := 0, y := 0 })).map
            (fun c => { c with sprites := c.sprites ++ [sp] }) ∧
        ∀ q, q ≠ claimTargetIndex 1
            (mkSprite "#00ff00" { x := 0, z := 0, y := 0 }
              { x := 0, y := 0 }).pos
            { x := 0, y := 0 } →
          containerAtI
              (pointerdown 16 (fun _ => none) "grass"
                { lastKey := some 1, isActive := true }
                (mkSprite "#00ff00" { x := 0, z := 0, y := 0 } { x := 0, y := 0 })
                { x := 0, y := 0 }
                [[{ indexPos := { x := 0, y := 0 }, sprites := [] }]]
                (fun _ => Block.empty)).1 q =
            containerAtI [[{ indexPos := { x := 0, y := 0 }, sprites := [] }]] q) :=
  ⟨⟨by decide, by decide⟩,
    c3_place_amended 16 (fun _ => none) "grass"
      (mkSprite "#00ff00" { x := 0, z := 0, y := 0 } { x := 0, y := 0 })
      { x := 0, y := 0 }
      [[{ indexPos := { x := 0, y := 0 }, sprites := [] }]]
      (fun _ => Block.empty) 1 (by decide) (by decide)
      (fun h => absurd h (by decide)) (fun h => absurd h (by decide))⟩

/-- C9: with facing 5 (up) or 6 (down) latched, the edit is a guarded
no-op: unless the vertical neighbor is Empty and in range
(`z + 1 < renderChunkHeight` for up, `z - 1 > 0` for down) the handler
changes neither the grid nor the world; and a downward place can never
write at height z = 0. -/
theorem c9_vertical_guard (renderChunkHeight : Int)
    (colorMapper : String → Option String) (selectedBlockType : String)
    (sprite : Sprite) (containerIndex : IndexPos) (g : Grid) (w : World) :
    (¬ ((getBlock w { clickedAbsolutePos renderChunkHeight sprite with
          z := (clickedAbsolutePos renderChunkHeight sprite).z + 1 }).isEmpty = true ∧
        (clickedAbsolutePos renderChunkHeight sprite).z + 1 < renderChunkHeight) →
      pointerdown renderChunkHeight colorMapper selectedBlockType
        { lastKey := some 5, isActive := true } sprite containerIndex g w =
        (g, w)) ∧
    (¬ ((getBlock w { clickedAbsolutePos renderChunkHeight sprite with
          z := (clickedAbsolutePos renderChunkHeight sprite).z - 1 }).isEmpty = true ∧
        (clickedAbsolutePos renderChunkHeight sprite).z - 1 > 0) →
      pointerdown renderChunkHeight colorMapper selectedBlockType
        { lastKey := some 6, isActive := true } sprite containerIndex g w =
        (g, w)) ∧
    ∀ p : BlockPos, p.z = 0 →
      (pointerdown renderChunkHeight colorMapper selectedBlockType
          { lastKey := some 6, isActive := true } sprite containerIndex g
          w).2 p = w p := by
  refine ⟨fun hfail => ?_, fun hfail => ?_, fun p hp => ?_⟩
  · exact (if_neg (fun hc => hfail ⟨hc.2.1, hc.2.2⟩)).trans
      (if_neg (fun hc => absurd hc.1 (by decide)))
  · exact if_neg (fun hc => hfail ⟨hc.2.1, hc.2.2⟩)
  · by_cases hcond :
        (getBlock w { clickedAbsolutePos renderChunkHeight sprite with
          z := (clickedAbsolutePos renderChunkHeight sprite).z - 1 }).isEmpty = true ∧
        (clickedAbsolutePos renderChunkHeight sprite).z - 1 > 0
    · have hred : pointerdown renderChunkHeight colorMapper selectedBlockType
          { lastKey := some 6, isActive := true } sprite containerIndex g w =
          (addSpriteAt g containerIndex
              (jsOrColor (colorMapper selectedBlockType) "#00ff00")
              { x := sprite.pos.x, y := sprite.pos.y + 1, z := sprite.pos.z }
              sprite.containerCenter,
            setBlock w
              { clickedAbsolutePos renderChunkHeight sprite with
                  z := (clickedAbsolutePos renderChunkHeight sprite).z - 1 }
              (Block.material selectedBlockType)) :=
        if_pos ⟨rfl, hcond.1, hcond.2⟩
      rw [hred]
      dsimp only
      unfold setBlock
      rw [if_neg]
      intro he
      have hz : p.z = (clickedAbsolutePos renderChunkHeight sprite).z - 1 := by
        rw [he]
      omega
    · have hred : pointerdown renderChunkHeight colorMapper selectedBlockType
          { lastKey := some 6, isActive := true } sprite containerIndex g w =
          (g, w) := if_neg (fun hc => hcond ⟨hc.2.1, hc.2.2⟩)
      rw [hred]

/-- Witness for `c9_vertical_guard`, taking its second conjunct (down on
an occupied neighbor) at concrete inputs. -/
theorem c9_vertical_guard_witness :
    ¬ ((getBlock (fun _ => Block.material "stone")
          { clickedAbsolutePos 16
              (mkSprite "#00ff00" { x := 0, z := 0, y := 0 } { x := 0, y := 0 }) with
            z := (clickedAbsolutePos 16
              (mkSprite "#00ff00" { x := 0, z := 0, y := 0 }
                { x := 0, y := 0 })).z - 1 }).isEmpty = true ∧
        (clickedAbsolutePos 16
          (mkSprite "#00ff00" { x := 0, z := 0, y := 0 }
            { x := 0, y := 0 })).z - 1 > 0) ∧
    pointerdown 16 (fun _ => none) "grass"
        { lastKey := some 6, isActive := true }
        (mkSprite "#00ff00" { x := 0, z := 0, y := 0 } { x := 0, y := 0 })
        { x := 0, y := 0 }
        [[{ indexPos := { x := 0, y := 0 }, sprites := [] }]]
        (fun _ => Block.material "stone") =
      ([[{ indexPos := { x := 0, y := 0 }, sprites := [] }]],
        fun _ => Block.material "stone") :=
  ⟨by decide,
    (c9_vertical_guard 16 (fun _ => none) "grass"
        (mkSprite "#00ff00" { x := 0, z := 0, y := 0 } { x := 0, y := 0 })
        { x := 0, y := 0 }
        [[{ indexPos := { x := 0, y := 0 }, sprites := [] }]]
        (fun _ => Block.material "stone")).2.1 (by decide)⟩

end InputMagic
